import Mathlib

/-!
Shallow embedding of the SmartBuddy webhook bot (src/app.py).

The Python service keeps a per-user state dictionary in Cosmos DB and runs a
small conversational state machine over it (`SmartBuddyBot.process_message`),
with helper flows for recommending (`recomendar_eventos`) and booking
(`agendar_evento`) events, an LLM fallback (`procesar_respuesta_ai`), a
persistence wrapper (`get_user_state` / `save_user_state`), and a Flask
endpoint (`messages`).

Modelling conventions:

* The Python state dict uses the keys `intereses` (list of strings), `estado`
  (string), `evento_pendiente` (string) and `evento_pendiente_sala` (string).
  A key being absent is modelled as `none`.  The spec's phase names map to the
  code's strings: AWAITING_INTERESTS = "esperando_intereses", READY = "listo";
  `pendingEvent` is the pair `evento_pendiente` / `evento_pendiente_sala`.
* A turn's externally visible behaviour is a list of `Effect`s: replies sent
  via `turn_context.send_activity` and state writes via `save_user_state`
  (recording the key and the state value), in program order.
* Outcomes of the external services (Cosmos queries and reads, the MS Graph
  post, the OpenAI completion) are injected through an `Env` record; the
  `try/except cosmos_exceptions.CosmosHttpResponseError` blocks of the source
  correspond to the `cosmosError` constructors.
* `process_message` takes the user state read at the start of the turn
  (app.py line 372 reads it under the composite key
  `user_id ++ "_" ++ conversation_id`); the turn-level model treats the state
  store nominally (reads and writes succeed), while the store wrapper's own
  error handling and retries are modelled separately below.
-/

/-- The per-user state dictionary (app.py dict values stored under `state`).
`none` models an absent key. -/
structure UserState where
  intereses : Option (List String)
  estado : Option String
  evento_pendiente : Option String
  evento_pendiente_sala : Option String
deriving DecidableEq, Repr

/-- The empty state `{}`. -/
def emptyState : UserState := ⟨none, none, none, none⟩

/-- `user_state.get("intereses", [])`: the stored interests list, defaulting
to the empty list when the key is absent.  Python's
`not user_state.get("intereses")` (line 389) is `interesesList = []`. -/
def UserState.interesesList (s : UserState) : List String :=
  s.intereses.getD []

/-- Python truthiness of an optional string value: `None` and `""` are falsy
(`if not evento_id or not sala`, app.py line 268). -/
def optFalsy : Option String → Bool
  | none => true
  | some s => s == ""

/-- Drop leading whitespace characters. -/
def dropLeadingWs : List Char → List Char
  | [] => []
  | c :: cs => if c.isWhitespace then dropLeadingWs cs else c :: cs

/-- Python `str.strip()` on a character list: drop whitespace from both ends. -/
def pyStrip (l : List Char) : List Char :=
  (dropLeadingWs (dropLeadingWs l).reverse).reverse

/-- Python `str.lower()` on a character list (ASCII case mapping). -/
def pyLower (l : List Char) : List Char :=
  l.map Char.toLower

/-- Python `str.split(",")` on a character list: `""` yields `[""]`, and
consecutive commas yield empty groups. -/
def splitOnComma : List Char → List (List Char)
  | [] => [[]]
  | c :: cs =>
    let r := splitOnComma cs
    if c = ',' then [] :: r
    else
      match r with
      | [] => [[c]]
      | g :: gs => (c :: g) :: gs

/-- `(turn_context.activity.text or "").strip().lower()` (app.py line 367). -/
def pyProcessText (t : String) : String :=
  String.mk (pyLower (pyStrip t.data))

/-- `[i.strip() for i in user_text.split(",") if i.strip()]` (app.py line 400). -/
def parseIntereses (t : String) : List String :=
  ((splitOnComma t.data).map (fun g => String.mk (pyStrip g))).filter (fun s => s ≠ "")

/-- An externally visible action of a turn: a reply sent to the user, or a
state write (`save_user_state key st`). -/
inductive Effect where
  | reply (msg : String)
  | save (key : String) (st : UserState)
deriving DecidableEq, Repr

/-- An event document from the `Eventos` container.  The code reads `id`,
`sala`, `nombre`, `hora`, and optionally `hora_fin` and `descripcion`; the
`popularidad` field is carried by the catalog (spec: `popularity?`) but never
read by the code. -/
structure Evento where
  id : String
  sala : String
  nombre : String
  hora : String
  hora_fin : Option String
  descripcion : Option String
  popularidad : Option Nat
deriving DecidableEq, Repr

/-- Outcome of `event_container.query_items` (app.py lines 227-231): the
result list, or a `CosmosHttpResponseError` (the only exception type caught). -/
inductive QueryOutcome where
  | ok (eventos : List Evento)
  | cosmosError
deriving DecidableEq, Repr

/-- Outcome of `event_container.read_item` in `agendar_evento` (lines
274-278): the event document, or a `CosmosHttpResponseError` (the only
exception type caught there). -/
inductive FetchOutcome where
  | found (evento : Evento)
  | cosmosError
deriving DecidableEq, Repr

/-- Availability flags of the external services and the injected outcomes of
their calls during one turn. -/
structure Env where
  cosmos_available : Bool
  graph_available : Bool
  openai_available : Bool
  query : QueryOutcome
  fetch : FetchOutcome
  graphPostOk : Bool
  aiReply : Option String
deriving DecidableEq, Repr

/-- A convenient concrete environment for closed evaluations. -/
def envDefault : Env :=
  ⟨true, false, false, QueryOutcome.ok [], FetchOutcome.cosmosError, false, none⟩

/-- The apostrophe character, used by the booking confirmation message. -/
def apos : String := String.singleton (Char.ofNat 39)

/-- `SmartBuddyBot.recomendar_eventos` (app.py lines 211-253): recommend the
first event returned by the catalog query and store it as the pending event.
Note the state write goes to the plain `user_id` argument (lines 220, 245). -/
def recomendar_eventos (env : Env) (user_id : String) (user_state : UserState) :
    List Effect :=
  if env.cosmos_available = false then
    [Effect.reply "Servicio de eventos no disponible en este momento."]
  else if user_state.interesesList = [] then
    [Effect.reply "No tienes intereses registrados. Por favor, dime qué te interesa.",
     Effect.save user_id { emptyState with estado := some "esperando_intereses" }]
  else
    match env.query with
    | QueryOutcome.cosmosError =>
      [Effect.reply "No pude buscar eventos en este momento."]
    | QueryOutcome.ok eventos =>
      match eventos with
      | [] => [Effect.reply "No encontré eventos que coincidan con tus intereses."]
      | evento :: _ =>
        [Effect.save user_id
           { user_state with evento_pendiente := some evento.id,
                             evento_pendiente_sala := some evento.sala },
         Effect.reply ("Evento: " ++ evento.nombre ++ " en " ++ evento.sala
            ++ " a las " ++ evento.hora ++ ". ¿Quieres agendarlo? (sí/no)")]

/-- `SmartBuddyBot.agendar_evento` (app.py lines 255-316): book the pending
event.  All writes go to the plain `user_id` argument (lines 262, 316). -/
def agendar_evento (env : Env) (user_id : String) (user_state : UserState) :
    List Effect :=
  if env.cosmos_available = false then
    [Effect.reply "No puedo acceder a la base de datos en este momento.",
     Effect.save user_id { user_state with evento_pendiente := none }]
  else if optFalsy user_state.evento_pendiente
       || optFalsy user_state.evento_pendiente_sala then
    [Effect.reply "No hay un evento pendiente para agendar."]
  else
    match env.fetch with
    | FetchOutcome.cosmosError =>
      [Effect.reply "No pude recuperar los detalles del evento.",
       Effect.save user_id
         { user_state with evento_pendiente := none, evento_pendiente_sala := none }]
    | FetchOutcome.found evento =>
      (if env.graph_available then
         (if env.graphPostOk then
            [Effect.reply "¡Evento agendado en tu calendario!"]
          else
            [Effect.reply "No pude agendar el evento en tu calendario."])
       else
         [Effect.reply ("Evento " ++ apos ++ evento.nombre ++ apos
            ++ " registrado. Nota: La integración con el calendario no está disponible.")])
      ++ [Effect.save user_id
           { user_state with evento_pendiente := none, evento_pendiente_sala := none }]

/-- `SmartBuddyBot.procesar_respuesta_ai` (app.py lines 318-346): relay the
completion service's reply, with fixed fallbacks. -/
def procesar_respuesta_ai (env : Env) : List Effect :=
  if env.openai_available = false then
    [Effect.reply "Estoy en modo limitado y no puedo procesar consultas generales en este momento."]
  else
    match env.aiReply with
    | some txt => [Effect.reply txt]
    | none => [Effect.reply "No pude procesar tu solicitud en este momento."]

/-- Whether `sub` is a prefix of the character list `l`. -/
def charsPrefix : List Char → List Char → Bool
  | [], _ => true
  | _ :: _, [] => false
  | a :: as, b :: bs => a == b && charsPrefix as bs

/-- Whether `sub` occurs as a contiguous run inside `l`. -/
def charsContains (sub : List Char) : List Char → Bool
  | [] => sub.isEmpty
  | c :: rest => charsPrefix sub (c :: rest) || charsContains sub rest

/-- Python's `sub in hay` substring test. -/
def strContains (hay sub : String) : Bool :=
  charsContains sub.data hay.data

/-- A rendering of the state dictionary standing in for `json.dumps` in the
`"mostrar estado"` debug reply (app.py line 385); `dumpState emptyState`
is "\x7b\x7d" like `json.dumps({})`. -/
def dumpState (s : UserState) : String :=
  let fields :=
    (match s.intereses with
     | none => []
     | some l =>
       ["\"intereses\": [" ++ String.intercalate ", " (l.map (fun i => "\"" ++ i ++ "\"")) ++ "]"])
    ++ (match s.estado with
        | none => []
        | some e => ["\"estado\": \"" ++ e ++ "\""])
    ++ (match s.evento_pendiente with
        | none => []
        | some e => ["\"evento_pendiente\": \"" ++ e ++ "\""])
    ++ (match s.evento_pendiente_sala with
        | none => []
        | some e => ["\"evento_pendiente_sala\": \"" ++ e ++ "\""])
  "\x7b" ++ String.intercalate ", " fields ++ "\x7d"

/-- The affirmative confirmation tokens (app.py line 433). -/
def affirmTokens : List String := ["sí", "si", "yes", "claro", "por supuesto"]

/-- The negative confirmation tokens (app.py line 436). -/
def negTokens : List String := ["no", "nop", "nope"]

/-- `SmartBuddyBot.process_message` (app.py lines 348-466).  `user_state` is
the state read at line 372 under the composite key
`user_id ++ "_" ++ conversation_id`; `text` is the raw activity text
(`None` modelled as `none`).  Returns the turn's effects in program order.
The post-save verification read of the capture flow (lines 416-421) only
logs and is not an external effect. -/
def process_message (env : Env) (activity_type user_id conversation_id : String)
    (text : Option String) (user_state : UserState) : List Effect :=
  if activity_type ≠ "message" then []
  else
    let composite_id := user_id ++ "_" ++ conversation_id
    let user_text := pyProcessText (text.getD "")
    if user_text = "reiniciar estado" then
      [Effect.save composite_id emptyState,
       Effect.reply "Estado reiniciado. ¡Hola! ¿Qué tipo de eventos te interesan? (Ej: IA, Marketing, Cloud)"]
    else if user_text = "mostrar estado" then
      [Effect.reply ("Estado actual: " ++ dumpState user_state)]
    else if user_state.interesesList = [] then
      (if user_state.estado ≠ some "esperando_intereses" then
         [Effect.save composite_id { emptyState with estado := some "esperando_intereses" }]
       else [])
      ++ [Effect.reply "¡Hola! ¿Qué tipo de eventos te interesan? (Ej: IA, Marketing, Cloud)"]
    else if user_state.estado = some "esperando_intereses" then
      let intereses := parseIntereses user_text
      if intereses = [] then
        [Effect.reply "No entendí tus intereses. Por favor, sepáralos por comas (Ej: IA, Marketing, Cloud)"]
      else
        [Effect.save composite_id
           { intereses := some intereses, estado := some "listo",
             evento_pendiente := none, evento_pendiente_sala := none },
         Effect.reply ("¡Genial! Registré tus intereses: "
            ++ String.intercalate ", " intereses ++ ". Ahora puedo recomendarte eventos.")]
    else if user_state.evento_pendiente.isSome ∧ user_text ∈ affirmTokens then
      agendar_evento env user_id user_state
    else if user_state.evento_pendiente.isSome ∧ user_text ∈ negTokens then
      [Effect.save user_id
         { user_state with evento_pendiente := none, evento_pendiente_sala := none },
       Effect.reply "Evento no agendado. ¿Puedo ayudarte con algo más?"]
    else if strContains user_text "recomienda" ∧ strContains user_text "evento" then
      recomendar_eventos env user_id user_state
    else if strContains user_text "mis intereses" then
      if user_state.interesesList ≠ [] then
        [Effect.reply ("Tus intereses actuales son: "
           ++ String.intercalate ", " user_state.interesesList)]
      else
        [Effect.reply "No tienes intereses registrados."]
    else if strContains user_text "cambiar intereses" then
      [Effect.reply "Por favor, dime tus nuevos intereses separados por comas (Ej: IA, Marketing, Cloud)",
       Effect.save user_id { user_state with estado := some "esperando_intereses" }]
    else
      procesar_respuesta_ai env

/-! ## InboundAdapter and persistence wrapper models -/

/-- Outcome of the bot handler logic inside a turn: it either completes or
raises an unhandled exception. -/
inductive HandlerOutcome where
  | ok
  | raises
deriving DecidableEq, Repr

/-- Injected outcomes for one inbound HTTP request: whether the bot handler
raises, and whether the two error-reply sends succeed. -/
structure TransportEnv where
  handler : HandlerOutcome
  errorReplySendOk : Bool
  recoveryReplySendOk : Bool
deriving DecidableEq, Repr

/-- The generic error reply sent by `on_error` (app.py line 503). -/
def genericErrorReply : String :=
  "Lo siento, ha ocurrido un error. El equipo técnico ha sido notificado."

/-- `adapter.process_activity` with `adapter.on_turn_error = on_error` set
(app.py lines 490-505, 536): per the Bot Framework adapter contract, an
exception raised by the turn handler is passed to `on_turn_error`, which sends
`genericErrorReply`, and is then not re-raised; `process_activity` itself
raises only if that error-reply send fails.  Returns the replies sent and
whether an exception escaped. -/
def process_activity (t : TransportEnv) : List String × Bool :=
  match t.handler with
  | HandlerOutcome.ok => ([], false)
  | HandlerOutcome.raises =>
    if t.errorReplySendOk then ([genericErrorReply], false)
    else ([], true)

/-- `call_bot` (app.py lines 533-549): run `process_activity`; on an escaping
exception, log, attempt a recovery message, and re-raise.
(`conversation_state.save_changes` over `MemoryStorage` is an in-memory write
and is not modelled as fallible.) -/
def call_bot (t : TransportEnv) : List String × Bool :=
  let r := process_activity t
  if r.2 then
    if t.recoveryReplySendOk then
      (r.1 ++ ["Lo siento, ocurrió un error procesando tu mensaje. Intenta nuevamente."], true)
    else (r.1, true)
  else (r.1, false)

/-- The `/api/messages` Flask endpoint `messages` (app.py lines 507-559):
reject non-JSON content with 415, return 500 when `call_bot` raises, else
acknowledge with 200.  Returns the HTTP status and the replies sent. -/
def messages (contentTypeJson : Bool) (t : TransportEnv) : Nat × List String :=
  if contentTypeJson = false then (415, [])
  else
    let r := call_bot t
    if r.2 then (500, r.1) else (200, r.1)

/-- Outcome of `user_state_container.read_item` in `get_user_state` (app.py
lines 131-135): the document's state, a 404 `CosmosHttpResponseError`, some
other `CosmosHttpResponseError`, or an exception that is not a
`CosmosHttpResponseError` (e.g. a connection error) — the latter is not
caught by any handler in `get_user_state`. -/
inductive ReadOutcome where
  | found (doc_state : UserState)
  | notFound
  | cosmosError
  | otherError
deriving DecidableEq, Repr

/-- `SmartBuddyBot.get_user_state` error handling (app.py lines 124-153).
Returns `Except.error` when an exception propagates to the caller; on success
the `Bool` records whether the 404 branch attempted the empty-state
initialization write (that inner write is wrapped in its own
`try/except Exception` and never raises). -/
def get_user_state (cosmos_available : Bool) (read : ReadOutcome) :
    Except Unit (UserState × Bool) :=
  if cosmos_available = false then Except.ok (emptyState, false)
  else
    match read with
    | ReadOutcome.found st => Except.ok (st, false)
    | ReadOutcome.notFound => Except.ok (emptyState, true)
    | ReadOutcome.cosmosError => Except.ok (emptyState, false)
    | ReadOutcome.otherError => Except.error ()

/-- An observable step of the `save_user_state` retry loop: an upsert attempt
(numbered from 0) or an `asyncio.sleep` of the given number of seconds. -/
inductive SaveEvent where
  | attempt (n : Nat)
  | sleepSecs (n : Nat)
deriving DecidableEq, Repr

/-- Whether a `SaveEvent` is an upsert attempt. -/
def SaveEvent.isAttempt : SaveEvent → Bool
  | SaveEvent.attempt _ => true
  | SaveEvent.sleepSecs _ => false

/-- The retry loop of `save_user_state` (app.py lines 190-205), recursing on
the remaining iterations of `while retry_count < max_retries`.  `outcome n`
says whether upsert attempt `n` succeeds.  Returns the event trace and
whether the loop re-raised (`retry_count >= max_retries` inside the except). -/
def upsertRetryLoop (outcome : Nat → Bool) : Nat → Nat → List SaveEvent × Bool
  | _, 0 => ([], false)
  | rc, rem + 1 =>
    if outcome rc then ([SaveEvent.attempt rc], false)
    else if rem = 0 then ([SaveEvent.attempt rc], true)
    else
      let r := upsertRetryLoop outcome (rc + 1) rem
      (SaveEvent.attempt rc :: SaveEvent.sleepSecs 1 :: r.1, r.2)

/-- `SmartBuddyBot.save_user_state` upsert phase (app.py lines 189-209): the
retry loop runs with `retry_count = 0`, `max_retries = 3`; the surrounding
`try/except Exception` (lines 207-209) catches the exhaustion re-raise, logs,
and returns normally, so the `Bool` (whether an exception reaches the caller)
is always `false`. -/
def save_user_state (outcome : Nat → Bool) : List SaveEvent × Bool :=
  ((upsertRetryLoop outcome 0 3).1, false)

/-- The `UserStates` container modelled as an association list from document
id to the document's `state` field. -/
abbrev Store := List (String × UserState)

/-- `upsert_item` (app.py line 195) on the nominal store: replace the document
when it exists, else insert it. -/
def upsert_item (store : Store) (uid : String) (st : UserState) : Store :=
  if (List.lookup uid store).isSome then
    store.map (fun p => if p.1 = uid then (uid, st) else p)
  else (uid, st) :: store

/-- `save_user_state` on the nominal store (no transient failures): the
existence pre-read (app.py lines 167-187) only shapes document metadata, and
the upsert stores the state under the given id. -/
def save_user_state_store (store : Store) (uid : String) (st : UserState) : Store :=
  upsert_item store uid st

/-- `get_user_state` on the nominal store (app.py lines 124-153): a found
document yields its state; a missing document (404) triggers the empty-state
initialization write of lines 142-148 before returning `{}`. -/
def get_user_state_store (store : Store) (uid : String) : Store × UserState :=
  match List.lookup uid store with
  | some st => (store, st)
  | none => (save_user_state_store store uid emptyState, emptyState)

/-! ## Claims about the persistence wrapper and the transport boundary -/

/-- Claim C7 (counterexample): `get_user_state` catches only
`CosmosHttpResponseError`; a backing-store error of any other type (e.g. a
connection error) propagates to the caller instead of degrading to the empty
state, so "never propagating any exception" is false. -/
theorem get_state_propagates_noncosmos_cex :
    get_user_state true ReadOutcome.otherError = Except.error () := rfl

/-- Claim C7 (amended): `get_user_state` returns the stored state on a
successful read, and degrades to the empty state when no record exists (404)
or on any other `CosmosHttpResponseError` (and when Cosmos is not
configured); only exceptions that are not `CosmosHttpResponseError`
propagate. -/
theorem get_state_absorbs_cosmos_errors :
    (∀ st : UserState, get_user_state true (ReadOutcome.found st) = Except.ok (st, false)) ∧
    get_user_state true ReadOutcome.notFound = Except.ok (emptyState, true) ∧
    get_user_state true ReadOutcome.cosmosError = Except.ok (emptyState, false) ∧
    (∀ r : ReadOutcome, get_user_state false r = Except.ok (emptyState, false)) :=
  ⟨fun _ => rfl, rfl, rfl, fun _ => rfl⟩

/-- Claim C8: the `save_user_state` upsert loop never lets an exception reach
the caller, makes at most 3 attempts with every wait between them being a
fixed 1-second sleep, and when all three attempts fail the trace is exactly
attempt 0, sleep 1s, attempt 1, sleep 1s, attempt 2, with the exhaustion
re-raise absorbed by the outer handler. -/
theorem save_retry_bounded_no_raise :
    (∀ o : Nat → Bool,
        (save_user_state o).2 = false ∧
        (save_user_state o).1.countP (fun ev => ev.isAttempt) ≤ 3 ∧
        (save_user_state o).1.all
          (fun ev => ev.isAttempt || ev == SaveEvent.sleepSecs 1) = true) ∧
    save_user_state (fun _ => false) =
      ([SaveEvent.attempt 0, SaveEvent.sleepSecs 1, SaveEvent.attempt 1,
        SaveEvent.sleepSecs 1, SaveEvent.attempt 2], false) := by
  constructor
  · intro o
    cases h0 : o 0 <;> cases h1 : o 1 <;> cases h2 : o 2 <;>
      simp [save_user_state, upsertRetryLoop, h0, h1, h2, SaveEvent.isAttempt]
  · decide

/-- Claim C10: `get_user_state` is not effect-free on a missing key — when the
read finds no record it writes a document with the empty state for that id
before returning `{}`, so a subsequent lookup finds a record. -/
theorem get_initializes_missing_state (store : Store) (uid : String)
    (h : List.lookup uid store = none) :
    (get_user_state_store store uid).2 = emptyState ∧
    List.lookup uid (get_user_state_store store uid).1 = some emptyState := by
  simp [get_user_state_store, h, save_user_state_store, upsert_item, List.lookup]

/-- Witness for `get_initializes_missing_state` at the empty store. -/
theorem get_initializes_missing_state_witness :
    (get_user_state_store [] "u1").2 = emptyState ∧
    List.lookup "u1" (get_user_state_store [] "u1").1 = some emptyState :=
  get_initializes_missing_state [] "u1" rfl

/-- Claim C6: a JSON POST whose turn handler raises an unhandled exception is
still acknowledged with HTTP 200 after the generic error reply is sent by
`on_error`, provided that reply send itself succeeds; and a non-200 outcome
can only come from a non-JSON content type or from the error-reply send
failing (a transport-level failure). -/
theorem unhandled_exception_acked (t : TransportEnv)
    (hr : t.handler = HandlerOutcome.raises) (hok : t.errorReplySendOk = true) :
    ((messages true t).1 = 200 ∧ genericErrorReply ∈ (messages true t).2) ∧
    (∀ (ct : Bool) (u : TransportEnv),
      (messages ct u).1 ≠ 200 → ct = false ∨ u.errorReplySendOk = false) := by
  constructor
  · obtain ⟨h₁, h₂, h₃⟩ := t
    subst hr
    subst hok
    cases h₃ <;> simp [messages, call_bot, process_activity, genericErrorReply]
  · intro ct u hne
    obtain ⟨u₁, u₂, u₃⟩ := u
    cases ct <;> cases u₁ <;> cases u₂ <;> cases u₃ <;>
      simp_all [messages, call_bot, process_activity]

/-- Witness for `unhandled_exception_acked`: the handler raises, the error
reply goes through, and the request is acknowledged with 200. -/
theorem unhandled_exception_acked_witness :
    (messages true ⟨HandlerOutcome.raises, true, true⟩).1 = 200 ∧
    genericErrorReply ∈ (messages true ⟨HandlerOutcome.raises, true, true⟩).2 :=
  (unhandled_exception_acked ⟨HandlerOutcome.raises, true, true⟩ rfl rfl).1

/-! ## Claims about the conversational state machine -/

/-- Claim C1 (counterexample): with stored state exactly
`{"estado": "esperando_intereses"}` — the state the first-contact flow itself
writes, hence with empty interests — the message "ia, cloud, marketing" is
not parsed: the empty-interests branch (app.py line 389) fires before the
capture branch (line 399), re-prompts, and performs no write, so no READY
state with the parsed interests is persisted and no confirmation is sent. -/
theorem capture_skipped_for_empty_interests_cex :
    process_message envDefault "message" "u" "c" (some "ia, cloud, marketing")
        ⟨none, some "esperando_intereses", none, none⟩ =
      [Effect.reply "¡Hola! ¿Qué tipo de eventos te interesan? (Ej: IA, Marketing, Cloud)"] ∧
    Effect.save ("u" ++ "_" ++ "c")
        ⟨some ["ia", "cloud", "marketing"], some "listo", none, none⟩ ∉
      process_message envDefault "message" "u" "c" (some "ia, cloud, marketing")
        ⟨none, some "esperando_intereses", none, none⟩ :=
  ⟨by decide, by decide⟩

/-- Claim C1 (amended): for every stored state with phase
`esperando_intereses` and a non-empty interests list (as the
"cambiar intereses" flow produces), a message whose comma-split, trimmed,
non-empty tokens are "ia", "cloud", "marketing" persists
`{"intereses": ["ia","cloud","marketing"], "estado": "listo"}` under the
composite key and sends the confirmation echoing the parsed interests. -/
theorem interests_captured_when_nonempty (env : Env) (uid cid text : String)
    (st : UserState) (l : List String)
    (hint : st.intereses = some l) (hl : l ≠ [])
    (hest : st.estado = some "esperando_intereses")
    (htok : parseIntereses (pyProcessText text) = ["ia", "cloud", "marketing"]) :
    process_message env "message" uid cid (some text) st =
      [Effect.save (uid ++ "_" ++ cid)
         ⟨some ["ia", "cloud", "marketing"], some "listo", none, none⟩,
       Effect.reply "¡Genial! Registré tus intereses: ia, cloud, marketing. Ahora puedo recomendarte eventos."] := by
  have h1 : ¬(pyProcessText text = "reiniciar estado") := by
    intro h; rw [h] at htok; exact absurd htok (by decide)
  have h2 : ¬(pyProcessText text = "mostrar estado") := by
    intro h; rw [h] at htok; exact absurd htok (by decide)
  have h3 : ¬(st.interesesList = []) := by
    simp [UserState.interesesList, hint, hl]
  simp [process_message, h1, h2, h3, hest, htok]
  decide

/-- Witness for `interests_captured_when_nonempty` at a concrete state and
the concrete message "ia, cloud, marketing". -/
theorem interests_captured_when_nonempty_witness :
    parseIntereses (pyProcessText "ia, cloud, marketing") = ["ia", "cloud", "marketing"] ∧
    process_message envDefault "message" "u" "c" (some "ia, cloud, marketing")
        ⟨some ["x"], some "esperando_intereses", none, none⟩ =
      [Effect.save ("u" ++ "_" ++ "c")
         ⟨some ["ia", "cloud", "marketing"], some "listo", none, none⟩,
       Effect.reply "¡Genial! Registré tus intereses: ia, cloud, marketing. Ahora puedo recomendarte eventos."] :=
  ⟨by decide,
   interests_captured_when_nonempty envDefault "u" "c" "ia, cloud, marketing"
     ⟨some ["x"], some "esperando_intereses", none, none⟩ ["x"] rfl (by decide) rfl (by decide)⟩

/-- Claim C9 (counterexample): with stored state exactly
`{"estado": "esperando_intereses"}` (empty interests), the empty input ""
reaches the empty-interests branch (app.py line 389), not the capture branch:
the state is indeed unchanged (no write occurs), but the reply is the
interests prompt, not the clarification asking for comma-separated
interests. -/
theorem empty_tokens_reprompt_cex :
    process_message envDefault "message" "u" "c" (some "")
        ⟨none, some "esperando_intereses", none, none⟩ =
      [Effect.reply "¡Hola! ¿Qué tipo de eventos te interesan? (Ej: IA, Marketing, Cloud)"] ∧
    "¡Hola! ¿Qué tipo de eventos te interesan? (Ej: IA, Marketing, Cloud)" ≠
      "No entendí tus intereses. Por favor, sepáralos por comas (Ej: IA, Marketing, Cloud)" :=
  ⟨by decide, by decide⟩

/-- Claim C9 (amended): for every stored state with phase
`esperando_intereses` and a non-empty interests list, an input whose
comma-split, trimmed tokens are all empty (e.g. "" or ",") produces only the
clarification reply and no state write. -/
theorem empty_tokens_clarification (env : Env) (uid cid text : String)
    (st : UserState) (l : List String)
    (hint : st.intereses = some l) (hl : l ≠ [])
    (hest : st.estado = some "esperando_intereses")
    (htok : parseIntereses (pyProcessText text) = []) :
    process_message env "message" uid cid (some text) st =
      [Effect.reply "No entendí tus intereses. Por favor, sepáralos por comas (Ej: IA, Marketing, Cloud)"] := by
  have h1 : ¬(pyProcessText text = "reiniciar estado") := by
    intro h; rw [h] at htok; exact absurd htok (by decide)
  have h2 : ¬(pyProcessText text = "mostrar estado") := by
    intro h; rw [h] at htok; exact absurd htok (by decide)
  have h3 : ¬(st.interesesList = []) := by
    simp [UserState.interesesList, hint, hl]
  simp [process_message, h1, h2, h3, hest, htok]

/-- Witness for `empty_tokens_clarification` at the input ",". -/
theorem empty_tokens_clarification_witness :
    parseIntereses (pyProcessText ",") = [] ∧
    process_message envDefault "message" "u" "c" (some ",")
        ⟨some ["x"], some "esperando_intereses", none, none⟩ =
      [Effect.reply "No entendí tus intereses. Por favor, sepáralos por comas (Ej: IA, Marketing, Cloud)"] :=
  ⟨by decide,
   empty_tokens_clarification envDefault "u" "c" ","
     ⟨some ["x"], some "esperando_intereses", none, none⟩ ["x"] rfl (by decide) rfl (by decide)⟩

/-- Claim C5 (counterexample): a user with empty stored state whose first
message is the debug command "mostrar estado" gets the state dump as the
reply, not the interests prompt, and no state is persisted. -/
theorem first_message_debug_command_cex :
    process_message envDefault "message" "u" "c" (some "mostrar estado") emptyState =
      [Effect.reply ("Estado actual: " ++ dumpState emptyState)] ∧
    "Estado actual: " ++ dumpState emptyState ≠
      "¡Hola! ¿Qué tipo de eventos te interesan? (Ej: IA, Marketing, Cloud)" :=
  ⟨by decide, by decide⟩

/-- Claim C5 (amended): for every user with empty stored state, a first
message that is not one of the debug commands "reiniciar estado" and
"mostrar estado" persists `{"estado": "esperando_intereses"}` under the
composite key and sends the interests prompt. -/
theorem first_message_prompts_interests (env : Env) (uid cid text : String)
    (h1 : pyProcessText text ≠ "reiniciar estado")
    (h2 : pyProcessText text ≠ "mostrar estado") :
    process_message env "message" uid cid (some text) emptyState =
      [Effect.save (uid ++ "_" ++ cid) ⟨none, some "esperando_intereses", none, none⟩,
       Effect.reply "¡Hola! ¿Qué tipo de eventos te interesan? (Ej: IA, Marketing, Cloud)"] := by
  simp [process_message, h1, h2, emptyState, UserState.interesesList]

/-- Witness for `first_message_prompts_interests` at the message "hola". -/
theorem first_message_prompts_interests_witness :
    process_message envDefault "message" "u" "c" (some "hola") emptyState =
      [Effect.save ("u" ++ "_" ++ "c") ⟨none, some "esperando_intereses", none, none⟩,
       Effect.reply "¡Hola! ¿Qué tipo de eventos te interesan? (Ej: IA, Marketing, Cloud)"] :=
  first_message_prompts_interests envDefault "u" "c" "hola" (by decide) (by decide)

/-- Claim C2: the state is read at the start of the turn under the composite
key `user_id + "_" + conversation_id` (app.py lines 362, 372), but the
pending-event decline branch persists under the plain `user_id` (line 441):
at the failing input (user "u", conversation "c", a pending event, text
"no"), the write key "u" differs from the read key "u_c", so the cleared
state is not visible to the next turn's read. -/
theorem decline_saves_under_plain_user_id :
    process_message envDefault "message" "u" "c" (some "no")
        ⟨some ["ia"], some "listo", some "e1", some "s1"⟩ =
      [Effect.save "u" ⟨some ["ia"], some "listo", none, none⟩,
       Effect.reply "Evento no agendado. ¿Puedo ayudarte con algo más?"] ∧
    ("u" : String) ≠ "u" ++ "_" ++ "c" :=
  ⟨by decide, by decide⟩

/-- The catalog result used by the ranking counterexample: A has popularity
50 at 10:00, B has 90 at 09:00, C has 90 at 08:00. -/
def eventoA : Evento := ⟨"A", "s1", "Charla A", "10:00", none, none, some 50⟩

/-- Event B of the ranking counterexample. -/
def eventoB : Evento := ⟨"B", "s2", "Charla B", "09:00", none, none, some 90⟩

/-- Event C of the ranking counterexample. -/
def eventoC : Evento := ⟨"C", "s3", "Charla C", "08:00", none, none, some 90⟩

/-- Claim C3 (counterexample): on a recommend-trigger message with catalog
result [A, B, C] (A: popularity 50 at 10:00, B: 90 at 09:00, C: 90 at
08:00), the code presents the single event `eventos[0] = A` and stores it as
pending; C — which the claimed descending-popularity, ascending-time order
would present first — is never presented, so the claimed C, B, A top-3
presentation is false. -/
theorem recommendation_ignores_popularity_cex :
    process_message { envDefault with query := QueryOutcome.ok [eventoA, eventoB, eventoC] }
        "message" "u" "c" (some "recomienda eventos")
        ⟨some ["ia"], some "listo", none, none⟩ =
      [Effect.save "u" ⟨some ["ia"], some "listo", some "A", some "s1"⟩,
       Effect.reply "Evento: Charla A en s1 a las 10:00. ¿Quieres agendarlo? (sí/no)"] ∧
    Effect.reply "Evento: Charla C en s3 a las 08:00. ¿Quieres agendarlo? (sí/no)" ∉
      process_message { envDefault with query := QueryOutcome.ok [eventoA, eventoB, eventoC] }
        "message" "u" "c" (some "recomienda eventos")
        ⟨some ["ia"], some "listo", none, none⟩ :=
  ⟨by decide, by decide⟩

/-- Claim C3 (amended): when the user has interests and the catalog query
returns a non-empty result, `recomendar_eventos` presents exactly the first
event of the result sequence — one event, with no popularity sort and no
top-3 — and stores its id and room as the pending event. -/
theorem recommendation_presents_first_event (env : Env) (uid : String)
    (st : UserState) (e : Evento) (rest : List Evento)
    (hc : env.cosmos_available = true)
    (hq : env.query = QueryOutcome.ok (e :: rest))
    (hi : st.interesesList ≠ []) :
    recomendar_eventos env uid st =
      [Effect.save uid
         { st with evento_pendiente := some e.id, evento_pendiente_sala := some e.sala },
       Effect.reply ("Evento: " ++ e.nombre ++ " en " ++ e.sala ++ " a las " ++ e.hora
          ++ ". ¿Quieres agendarlo? (sí/no)")] := by
  simp [recomendar_eventos, hc, hq, hi]

/-- Witness for `recommendation_presents_first_event` on the [A, B, C]
catalog result. -/
theorem recommendation_presents_first_event_witness :
    recomendar_eventos { envDefault with query := QueryOutcome.ok [eventoA, eventoB, eventoC] }
        "u" ⟨some ["ia"], some "listo", none, none⟩ =
      [Effect.save "u" ⟨some ["ia"], some "listo", some "A", some "s1"⟩,
       Effect.reply "Evento: Charla A en s1 a las 10:00. ¿Quieres agendarlo? (sí/no)"] := by
  have h := recommendation_presents_first_event
    { envDefault with query := QueryOutcome.ok [eventoA, eventoB, eventoC] }
    "u" ⟨some ["ia"], some "listo", none, none⟩ eventoA [eventoB, eventoC]
    rfl rfl (by decide)
  rw [h]
  decide

/-- A concrete READY state with a pending event, for witnesses. -/
def stPending : UserState := ⟨some ["ia"], some "listo", some "e1", some "s1"⟩

/-- A concrete environment in which the event is fetched and the calendar
booking succeeds. -/
def envBookOk : Env :=
  { envDefault with graph_available := true, graphPostOk := true,
                    fetch := FetchOutcome.found eventoA }

/-- Claim C4: for every stored state whose pending-event reference is set
(id and room present and non-empty) and whose confirmation branch is
reachable (non-empty interests, phase not `esperando_intereses`), processing
the input "si" clears the pending event in every state it writes, across
every outcome of the booking attempt — event fetched with calendar booking
succeeded or failed, calendar integration absent, event fetch failed, and
even Cosmos unavailable. -/
theorem pending_cleared_on_confirm (env : Env) (uid cid : String) (st : UserState)
    (l : List String) (e sl : String)
    (hint : st.intereses = some l) (hl : l ≠ [])
    (hest : st.estado ≠ some "esperando_intereses")
    (hep : st.evento_pendiente = some e) (he : e ≠ "")
    (hsala : st.evento_pendiente_sala = some sl) (hs : sl ≠ "") :
    ∀ (k : String) (stS : UserState),
      Effect.save k stS ∈ process_message env "message" uid cid (some "si") st →
      stS.evento_pendiente = none := by
  have h3 : ¬(st.interesesList = []) := by simp [UserState.interesesList, hint, hl]
  have hpm : process_message env "message" uid cid (some "si") st
      = agendar_evento env uid st := by
    simp only [process_message, Option.getD]
    rw [if_neg (by decide : ¬(("message" : String) ≠ "message"))]
    rw [if_neg (by decide : ¬(pyProcessText "si" = "reiniciar estado"))]
    rw [if_neg (by decide : ¬(pyProcessText "si" = "mostrar estado"))]
    rw [if_neg h3]
    rw [if_neg hest]
    rw [if_pos ⟨by simp [hep], by decide⟩]
  intro k stS hmem
  rw [hpm] at hmem
  obtain ⟨ca, ga, oa, q, f, gp, ar⟩ := env
  cases ca <;> cases f <;> cases ga <;> cases gp <;>
    simp_all [agendar_evento, optFalsy, hep, hsala, he, hs]

/-- Witness for `pending_cleared_on_confirm`: at `stPending` and the
booking-succeeds environment, the state written by the "si" turn has the
pending event cleared. -/
theorem pending_cleared_on_confirm_witness :
    stPending.evento_pendiente = some "e1" ∧
    (⟨some ["ia"], some "listo", none, none⟩ : UserState).evento_pendiente = none :=
  ⟨rfl,
   pending_cleared_on_confirm envBookOk "u" "c" stPending ["ia"] "e1" "s1"
     rfl (by decide) (by decide) rfl (by decide) rfl (by decide) "u"
     ⟨some ["ia"], some "listo", none, none⟩ (by decide)⟩
